import Mathlib

/-!
Verification of the DPSN node client (dpsn-client-nodejs).

The definitions below are a shallow embedding of `src/index.ts` and
`src/utils/waitForTransactionConfirmation.js`: each TypeScript method that a
claim refers to is translated into a pure Lean function over an explicit state
or environment, with the surrounding JavaScript runtime (promises, the MQTT
broker, the ethers provider) modelled as explicit inputs and outputs.
-/

deriving instance DecidableEq for Except

namespace Dpsn

/-! ## JavaScript / ethers.js helpers -/

/-- JavaScript `s.includes(sub)`: substring containment test. -/
def jsIncludes (s sub : String) : Bool :=
  (List.range (s.toList.length + 1)).any
    (fun i => sub.toList.isPrefixOf (s.toList.drop i))

/-- Left-pad a list of characters with `c` to length `n`. -/
def padLeftChars (n : Nat) (c : Char) (l : List Char) : List Char :=
  List.replicate (n - l.length) c ++ l

/-- `ethers.formatEther(wei)`: decimal string of `wei / 10^18`, the fractional
part with trailing zeros removed but at least one digit kept. -/
def formatEther (wei : Nat) : String :=
  let whole := wei / (10 ^ 18)
  let frac := wei % (10 ^ 18)
  let fracDigits := padLeftChars 18 '0' (toString frac).toList
  let trimmed := (fracDigits.reverse.dropWhile (fun c => c = '0')).reverse
  let fracPart := if trimmed.isEmpty then "0" else String.mk trimmed
  toString whole ++ "." ++ fracPart

/-! ## DPSN error codes and error values

`DPSN_ERROR_CODES` from `src/index.ts`; `DPSNError` instances carry a numeric
code and a message, while plain JavaScript `Error` values carry only a message.
-/

def CONNECTION_ERROR : Nat := 400
def PUBLISH_ERROR : Nat := 402
def INITIALIZATION_FAILED : Nat := 403
def CLIENT_NOT_INITIALIZED : Nat := 404
def CLIENT_NOT_CONNECTED : Nat := 405
def SUBSCRIBE_ERROR : Nat := 406
def SUBSCRIBE_NO_GRANT : Nat := 407
def SUBSCRIBE_SETUP_ERROR : Nat := 408
def DISCONNECT_ERROR : Nat := 409
def BLOCKCHAIN_CONFIG_ERROR : Nat := 410

/-- A thrown JavaScript value: either a structured `DPSNError` (numeric code +
message) or a plain `Error` carrying only a message. -/
inductive JsError where
  | dpsn (code : Nat) (message : String)
  | plain (message : String)
  deriving DecidableEq, Repr

/-- The message text of a thrown value (`error.message`). -/
def JsError.message : JsError → String
  | .dpsn _ m => m
  | .plain m => m

/-- Whether the caller can branch programmatically on a numeric error code:
true exactly for structured `DPSNError` values. -/
def JsError.hasCode : JsError → Bool
  | .dpsn _ _ => true
  | .plain _ => false

/-! ## Initialization lifecycle (`ensureInitialized` / `init` / `disconnect`)

State of the fields of `DpsnClient` that the lazy-initialization logic reads
and writes: `dpsnBroker` (broker handles are numbered), `connected`, and the
memoized `initializing` promise (promises are numbered by allocation order, so
`nextPromiseId` counts how many `init` calls have ever been started).
-/

structure InitLifecycle where
  dpsnBroker : Option Nat
  connected : Bool
  initializing : Option Nat
  nextPromiseId : Nat
  deriving DecidableEq, Repr

/-- Result of a call to `ensureInitialized`. -/
inductive EnsureOutcome where
  | existingBroker (b : Nat)
  | pending (p : Nat)
  deriving DecidableEq, Repr

/-- `ensureInitialized` (src/index.ts:437-449): return the broker if connected;
otherwise memoize a single in-flight `init` promise and hand it to every
caller. -/
def ensureInitialized (s : InitLifecycle) : InitLifecycle × EnsureOutcome :=
  match s.dpsnBroker, s.connected with
  | some b, true => (s, .existingBroker b)
  | _, _ =>
    match s.initializing with
    | some p => (s, .pending p)
    | none =>
      let p := s.nextPromiseId
      ({ s with initializing := some p, nextPromiseId := p + 1 }, .pending p)

/-- Terminal resolution of an in-flight `init` promise. On success the broker
handle is stored and `connected` is set; on failure the connection-error
handler has set `connected := false` (the broker field was already assigned by
`mqtt.connect` inside `connectWithRetry`). In both cases `init`
(src/index.ts:451-531) never writes the `initializing` field. -/
def initSettle (s : InitLifecycle) (success : Bool) (b : Nat) : InitLifecycle :=
  if success then { s with dpsnBroker := some b, connected := true }
  else { s with dpsnBroker := some b, connected := false }

/-- The `end` callback inside `disconnect` (src/index.ts:1010-1024) clears the
memoized `initializing` promise, and the `close` handler sets
`connected := false`. -/
def disconnectClear (s : InitLifecycle) : InitLifecycle :=
  { s with initializing := none, connected := false }

/-! ## JSON serialization (`JSON.stringify`)

The publish path serializes the caller's message with the JavaScript builtin
`JSON.stringify`; the builtin is modelled here for JSON trees. -/

inductive Json where
  | null
  | bool (b : Bool)
  | num (n : Int)
  | str (s : String)
  | arr (xs : List Json)
  | obj (fields : List (String × Json))

/-- Escaping of one character inside a JSON string literal. -/
def jsonEscapeChar (c : Char) : String :=
  if c = '"' then "\\\""
  else if c = '\\' then "\\\\"
  else if c = '\n' then "\\n"
  else if c = '\t' then "\\t"
  else if c = '\r' then "\\r"
  else String.mk [c]

def jsonEscape (s : String) : String :=
  String.join (s.toList.map jsonEscapeChar)

mutual

def jsonStringify : Json → String
  | .null => "null"
  | .bool b => if b then "true" else "false"
  | .num n => toString n
  | .str s => "\"" ++ jsonEscape s ++ "\""
  | .arr xs => "[" ++ jsonStringifyArr xs ++ "]"
  | .obj fs => "\x7b" ++ jsonStringifyObj fs ++ "\x7d"

def jsonStringifyArr : List Json → String
  | [] => ""
  | [x] => jsonStringify x
  | x :: y :: xs => jsonStringify x ++ "," ++ jsonStringifyArr (y :: xs)

def jsonStringifyObj : List (String × Json) → String
  | [] => ""
  | [(k, v)] => "\"" ++ jsonEscape k ++ "\":" ++ jsonStringify v
  | (k, v) :: f :: fs =>
    "\"" ++ jsonEscape k ++ "\":" ++ jsonStringify v ++ "," ++ jsonStringifyObj (f :: fs)

end

/-! ## Hex topics and `ethers.toBeArray` -/

/-- Characters before the first `'/'`. -/
def jsSplitHeadChars : List Char → List Char
  | [] => []
  | c :: rest => if c = '/' then [] else c :: jsSplitHeadChars rest

/-- JavaScript `topic.split('/')[0]`: the segment before the first slash. -/
def jsSplitHead (s : String) : String := String.mk (jsSplitHeadChars s.toList)

/-- One character of `[0-9a-fA-F]`. -/
def isHexDigitChar (c : Char) : Bool :=
  ('0' ≤ c && c ≤ '9') || ('a' ≤ c && c ≤ 'f') || ('A' ≤ c && c ≤ 'F')

/-- The test `/^0x[0-9a-fA-F]+$/.test(s)` used on the topic root. -/
def isHexTopicRoot (s : String) : Bool :=
  match s.toList with
  | '0' :: 'x' :: rest => !rest.isEmpty && rest.all isHexDigitChar
  | _ => false

def hexDigitVal (c : Char) : Nat :=
  if '0' ≤ c && c ≤ '9' then c.toNat - '0'.toNat
  else if 'a' ≤ c && c ≤ 'f' then c.toNat - 'a'.toNat + 10
  else if 'A' ≤ c && c ≤ 'F' then c.toNat - 'A'.toNat + 10
  else 0

/-- Numeric value of a `0x`-prefixed hex string. -/
def hexValue (s : String) : Nat :=
  match s.toList with
  | '0' :: 'x' :: rest => rest.foldl (fun acc c => acc * 16 + hexDigitVal c) 0
  | _ => 0

/-- Minimal big-endian byte list of `n`, with `fuel` bounding the recursion
depth (`fuel = n` always suffices). -/
def natToBytesAux : Nat → Nat → List Nat
  | 0, _ => []
  | fuel + 1, n => if n = 0 then [] else natToBytesAux fuel (n / 256) ++ [n % 256]

def natToBytesBE (n : Nat) : List Nat := natToBytesAux n n

/-- `ethers.toBeArray(hexString)`: the minimal big-endian byte array of the
numeric value the hex string denotes. -/
def toBeArray (s : String) : List Nat := natToBytesBE (hexValue s)

/-- `JSON.parse`/UTF-8 boundary: `ethers.toUtf8Bytes(s)`. -/
def utf8Bytes (s : String) : List Nat := s.toUTF8.toList.map (fun b => b.toNat)

/-- `wallet.signMessage(bytes)`: the external signer is modelled as the pair
of the signing wallet (numbered) and the exact bytes signed, which is all the
claims inspect. -/
structure Sig where
  wallet : Nat
  signedBytes : List Nat
  deriving DecidableEq, Repr

/-! ## Pub/sub state, publish, subscribe, unsubscribe, dispatch -/

/-- JS `Map.get` on an insertion-ordered association list. -/
def mapGet : List (String × Nat) → String → Option Nat
  | [], _ => none
  | (k, v) :: rest, key => if k = key then some v else mapGet rest key

/-- JS `Map.set`: replace in place, else append. -/
def mapSet : List (String × Nat) → String → Nat → List (String × Nat)
  | [], key, v => [(key, v)]
  | (k, w) :: rest, key, v =>
    if k = key then (key, v) :: rest else (k, w) :: mapSet rest key v

/-- The `DpsnClient` fields the pub/sub operations read and write: the broker
handle, the connected flag, and the `topicCallbacks` map (callbacks are
numbered). -/
structure ClientPubSub where
  dpsnBroker : Option Nat
  connected : Bool
  topicCallbacks : List (String × Nat)
  deriving DecidableEq, Repr

/-- The shared inbound `message` handler installed by `init`
(src/index.ts:488-505): look up the callback registered for the received
topic; return the callback invoked, if any (the handler also always re-emits
on the general `message` channel). -/
def dispatchMessage (s : ClientPubSub) (receivedTopic : String) : Option Nat :=
  mapGet s.topicCallbacks receivedTopic

/-- Broker response to a `subscribe` request. -/
inductive BrokerSubResult where
  | err (msg : String)
  | granted (qosList : List Nat)
  deriving DecidableEq, Repr

/-- The inner `subscribe`-request promise (src/index.ts:664-689): transport
error rejects with `SUBSCRIBE_ERROR`, an empty grant list rejects with
`SUBSCRIBE_NO_GRANT`, otherwise the first granted QoS is reported. -/
def subscribeAttempt (topic : String) (broker : BrokerSubResult) : Except JsError Nat :=
  match broker with
  | .err msg =>
    .error (.dpsn SUBSCRIBE_ERROR
      ("Failed to subscribe to DPSN topic '" ++ topic ++ "': " ++ msg))
  | .granted [] =>
    .error (.dpsn SUBSCRIBE_NO_GRANT
      ("No subscription granted for DPSN topic '" ++ topic ++ "'"))
  | .granted (q :: _) => .ok q

/-- `subscribe` (src/index.ts:620-701). Inputs: the result of the awaited
`ensureInitialized`, the client state after that await, the topic, the
callback (numbered), and the broker's response. Output: the new state, the
settled result, the `subscribe` events emitted (topic, granted QoS), and the
errors broadcast on the `error` channel. The inner rejection is caught by the
surrounding try/catch and re-thrown wrapped as `SUBSCRIBE_SETUP_ERROR`; the
callback is stored only after the grant. -/
def subscribeModel (ensureResult : Except JsError Unit) (s : ClientPubSub)
    (topic : String) (cb : Nat) (broker : BrokerSubResult) :
    ClientPubSub × Except JsError Unit × List (String × Nat) × List JsError :=
  match ensureResult with
  | .error e =>
    (s, .error (.dpsn INITIALIZATION_FAILED
      ("Failed to initialize MQTT client: " ++ e.message)), [], [])
  | .ok _ =>
    match s.dpsnBroker with
    | none =>
      (s, .error (.dpsn CLIENT_NOT_INITIALIZED
        "Cannot subscribe: DPSN MQTT client not initialized. Initialization failed."),
        [], [])
    | some _ =>
      if s.connected then
        match subscribeAttempt topic broker with
        | .error e =>
          (s, .error (.dpsn SUBSCRIBE_SETUP_ERROR
            ("Failed to set up subscription for DPSN topic '" ++ topic ++ "': "
              ++ e.message)), [], [])
        | .ok q =>
          ({ s with topicCallbacks := mapSet s.topicCallbacks topic cb },
            .ok (), [(topic, q)], [])
      else
        (s, .error (.dpsn CLIENT_NOT_CONNECTED
          "Cannot subscribe: DPSN MQTT client is not connected. Please check your connection."),
          [], [])

/-- Broker response to a `publish` request. -/
inductive BrokerPubResult where
  | err (msg : String)
  | ok (messageId : Option Nat)
  deriving DecidableEq, Repr

/-- What the broker receives from one `publish` call. -/
structure PublishDelivery where
  topic : String
  payload : String
  qos : Nat
  retain : Bool
  signatures : List Sig
  deriving DecidableEq, Repr

/-- `publish` (src/index.ts:541-610). Inputs: the awaited `ensureInitialized`
result, whether a broker handle exists, the wallet, topic, message, the
caller-supplied QoS/retain options, and the broker's response. Output: the
settled result, the delivery the broker received (if the request was issued),
the errors broadcast on the `error` channel, and the `publish_success` events
emitted. -/
def publishModel (ensureResult : Except JsError Unit) (brokerPresent : Bool)
    (w : Nat) (topic : String) (message : Json) (qos : Nat) (retain : Bool)
    (broker : BrokerPubResult) :
    Except JsError Unit × Option PublishDelivery × List JsError
      × List (String × Option Nat) :=
  match ensureResult with
  | .error e => (.error e, none, [], [])
  | .ok _ =>
    if brokerPresent then
      let parentTopic := jsSplitHead topic
      if isHexTopicRoot parentTopic then
        let signature : Sig := ⟨w, toBeArray parentTopic⟩
        let delivery : PublishDelivery :=
          ⟨topic, jsonStringify message, qos, retain, [signature]⟩
        match broker with
        | .err msg =>
          let m := if msg = "" then "Failed to publish message" else msg
          let e := JsError.dpsn PUBLISH_ERROR m
          (.error e, some delivery, [e], [])
        | .ok mid => (.ok (), some delivery, [], [(topic, mid)])
      else
        (.error (.plain
          "❌ Invalid DPSN topic format. Topic must be a hex string starting with 0x"),
          none, [], [])
    else
      (.error (.plain
        "❌ DPSN MQTT client not initialized. Initialization failed."),
        none, [], [])

/-- Broker response to an `unsubscribe` request. -/
inductive BrokerUnsubResult where
  | err (msg : String)
  | ok
  deriving DecidableEq, Repr

/-- `unsubscribe` (src/index.ts:709-748): state checks, then the transport
request; on success it resolves with the confirmation record. It never writes
`topicCallbacks`. -/
def unsubscribeModel (s : ClientPubSub) (topic : String)
    (broker : BrokerUnsubResult) :
    ClientPubSub × Except JsError (String × String) :=
  match s.dpsnBroker with
  | none =>
    (s, .error (.dpsn CLIENT_NOT_INITIALIZED
      "Cannot unsubscribe: DPSN MQTT client not initialized."))
  | some _ =>
    if s.connected then
      match broker with
      | .err msg =>
        (s, .error (.dpsn SUBSCRIBE_ERROR
          ("Failed to unsubscribe from DPSN topic '" ++ topic ++ ":" ++ msg ++ "'")))
      | .ok => (s, .ok (topic, "unsubscribed"))
    else
      (s, .error (.dpsn CLIENT_NOT_CONNECTED
        "Cannot unsubscribe: DPSN MQTT client is not connected"))

/-! ## Blockchain configuration, price lookup, balance gate, topic purchase -/

/-- Whether the provider and contract fields of the client are set. -/
structure ChainConfig where
  providerSet : Bool
  contractSet : Bool
  deriving DecidableEq, Repr

/-- The chain-relevant part of the constructor (src/index.ts:211-262):
`validateChainOptions`, then the provider is constructed only when an RPC URL
was supplied; the contract is never set at construction. -/
def constructChainConfig (network walletChainType : String)
    (rpcUrl : Option String) : Except String ChainConfig :=
  if network ≠ "mainnet" && network ≠ "testnet" then
    .error "Network must be either mainnet or testnet"
  else if walletChainType ≠ "ethereum" then
    .error "Only Ethereum wallet_chain_type is supported right now"
  else
    .ok ⟨rpcUrl.isSome, false⟩

/-- `getTopicPrice` (src/index.ts:779-797). Input: the chain config and the
result of the contract call `contract.getTopicPrice()`. Output: the settled
result and the number of contract (network) calls issued. The inner
`BLOCKCHAIN_CONFIG_ERROR` `DPSNError` is caught by the method's own catch and
re-thrown as a plain `Error` wrapping only its message. -/
def getTopicPriceModel (cfg : ChainConfig) (contractCall : Except String Nat) :
    Except JsError Nat × Nat :=
  if cfg.contractSet then
    match contractCall with
    | .ok price => (.ok price, 1)
    | .error m => (.error (.plain ("Failed to fetch topic price: " ++ m)), 1)
  else
    let e := JsError.dpsn BLOCKCHAIN_CONFIG_ERROR
      "Blockchain configuration not initialized. Please call setBlockchainConfig first."
    (.error (.plain ("Failed to fetch topic price: " ++ e.message)), 0)

/-- `checkBalance` (src/index.ts:804-812): throw when the fetched balance is
below the price, naming both amounts. -/
def checkBalance (balance price : Nat) : Except JsError Unit :=
  if balance < price then
    .error (.plain ("Insufficient balance. Required: " ++ formatEther price
      ++ " ETH, Available: " ++ formatEther balance ++ " ETH"))
  else
    .ok ()

/-- `generateTopicHash` (src/index.ts:819-823): seconds nonce from
`Date.now()` milliseconds, then keccak256 over the UTF-8 bytes of
`nonce ++ "_" ++ name`. The keccak256 primitive is the external ethers
function, passed in. -/
def generateTopicHash (keccak : List Nat → String) (nowMillis : Nat)
    (topicName : String) : String :=
  let timestampNonce := nowMillis / 1000
  let topicSeed := toString timestampNonce ++ "_" ++ topicName
  keccak (utf8Bytes topicSeed)

/-- Claim-side restatement of the hash recipe, written from the spec's words:
the hash of the UTF-8 bytes of the string formed by the current unix
timestamp in seconds, an underscore, and the topic name. -/
def topicHashSpec (keccak : List Nat → String) (unixSeconds : Nat)
    (topicName : String) : String :=
  keccak (utf8Bytes (toString unixSeconds ++ "_" ++ topicName))

/-- `ethers.getBytes(hexString)`: the bytes a `0x`-prefixed even-length hex
string spells, one byte per digit pair. -/
def hexPairsToBytes : List Char → List Nat
  | c1 :: c2 :: rest => (hexDigitVal c1 * 16 + hexDigitVal c2) :: hexPairsToBytes rest
  | _ => []

def getBytesHex (s : String) : List Nat :=
  match s.toList with
  | '0' :: 'x' :: rest => hexPairsToBytes rest
  | _ => []

/-- One `registerTopic(name, hash, signature, value)` transaction submitted
to the contract. -/
structure RegisterCall where
  name : String
  topicHash : String
  signature : Sig
  value : Nat
  deriving DecidableEq, Repr

/-- Environment of one `purchaseTopic` call: the chain config and the
responses of the external collaborators, in the order the method consults
them. -/
structure PurchaseEnv where
  cfg : ChainConfig
  priceCall : Except String Nat
  balance : Nat
  registerResult : Except String Nat
  confirmResult : Except String Nat
  deriving DecidableEq, Repr

/-- `purchaseTopic` (src/index.ts:831-913). Output: the settled result
(receipt id and topic hash on success) and the list of `registerTopic`
transactions submitted to the contract. Every thrown error is caught by the
method's catch and wrapped as `Error("Failed to register topic: " + msg)`. -/
def purchaseTopicModel (env : PurchaseEnv) (w : Nat) (topicName : String)
    (nowMillis : Nat) (keccak : List Nat → String) :
    Except JsError (Nat × String) × List RegisterCall :=
  if env.cfg.contractSet then
    if env.cfg.providerSet then
      match getTopicPriceModel env.cfg env.priceCall with
      | (.error e, _) =>
        (.error (.plain ("Failed to register topic: " ++ e.message)), [])
      | (.ok price, _) =>
        match checkBalance env.balance price with
        | .error e =>
          (.error (.plain ("Failed to register topic: " ++ e.message)), [])
        | .ok _ =>
          let topicHash := generateTopicHash keccak nowMillis topicName
          let signature : Sig := ⟨w, getBytesHex topicHash⟩
          let submitted : List RegisterCall :=
            [⟨topicName, topicHash, signature, price⟩]
          match env.registerResult with
          | .error m =>
            (.error (.plain ("Failed to register topic: " ++ m)), submitted)
          | .ok _ =>
            match env.confirmResult with
            | .error m =>
              (.error (.plain ("Failed to register topic: " ++ m)), submitted)
            | .ok receipt => (.ok (receipt, topicHash), submitted)
    else
      (.error (.plain
        "Failed to register topic: Provider not initialized. Please call setBlockchainConfig first."),
        [])
  else
    (.error (.plain
      "Failed to register topic: Blockchain configuration not initialized. Please call setBlockchainConfig first."),
      [])

/-- A concrete purchase environment: configured chain, price 2 wei, balance
1 wei. -/
def lowBalanceEnv : PurchaseEnv := ⟨⟨true, true⟩, .ok 2, 1, .ok 0, .ok 0⟩

/-! ## `waitForTransactionConfirmation`
(src/utils/waitForTransactionConfirmation.js:28-80)

Virtual time advances only at the `setTimeout(pollingInterval)` sleeps; the
receipt provider is a function of the poll index. -/

/-- One poll against the provider: no receipt yet, a receipt carrying its
current confirmation count, or a thrown polling error. -/
inductive PollResponse where
  | noReceipt
  | receipt (blockNumber confs : Nat)
  | pollError (msg : String)
  deriving DecidableEq, Repr

/-- The loop's settled result together with the virtual elapsed time at which
it settled. -/
structure WaitResult where
  result : Except String Nat
  elapsed : Nat
  deriving DecidableEq, Repr

def confirmationTimeoutMsg (timeout : Nat) : String :=
  "Transaction confirmation timeout after " ++ toString timeout ++ "ms"

/-- The polling loop: the elapsed-time check runs first in every iteration,
before the receipt fetch; a receipt with enough confirmations returns; a
polling error whose message contains "timeout" is re-raised immediately, any
other polling error (and a pending or under-confirmed receipt) sleeps one
interval and continues. `fuel` bounds the number of iterations. -/
def confirmationLoop (provider : Nat → PollResponse)
    (confirmations timeout pollingInterval : Nat) :
    Nat → Nat → Nat → Option WaitResult
  | 0, _, _ => none
  | fuel + 1, iter, elapsed =>
    if timeout < elapsed then
      some ⟨.error (confirmationTimeoutMsg timeout), elapsed⟩
    else
      match provider iter with
      | .pollError msg =>
        if jsIncludes msg "timeout" then some ⟨.error msg, elapsed⟩
        else confirmationLoop provider confirmations timeout pollingInterval
          fuel (iter + 1) (elapsed + pollingInterval)
      | .receipt _ confs =>
        if confs < confirmations then
          confirmationLoop provider confirmations timeout pollingInterval
            fuel (iter + 1) (elapsed + pollingInterval)
        else
          some ⟨.ok confs, elapsed⟩
      | .noReceipt =>
        confirmationLoop provider confirmations timeout pollingInterval
          fuel (iter + 1) (elapsed + pollingInterval)

/-- `waitForTransactionConfirmation` with enough fuel for the whole timeout
budget plus one final iteration. -/
def waitForTransactionConfirmation (provider : Nat → PollResponse)
    (confirmations timeout pollingInterval : Nat) : Option WaitResult :=
  confirmationLoop provider confirmations timeout pollingInterval
    (timeout / pollingInterval + 2) 0 0

/-- The part of claim C1 that the code satisfies, at state `s` with memoized
promise `p`: single-flight sharing, `init` never clearing the memoized future,
and `disconnect` clearing it so the next call starts afresh. -/
def C1Prop (s : InitLifecycle) (p : Nat) : Prop :=
  (s.initializing = some p → ensureInitialized s = (s, .pending p)) ∧
  ((ensureInitialized (ensureInitialized s).1).2 = (ensureInitialized s).2 ∧
    (ensureInitialized (ensureInitialized s).1).1.nextPromiseId ≤ s.nextPromiseId + 1) ∧
  (∀ ok b, (initSettle s ok b).initializing = s.initializing) ∧
  ((disconnectClear s).initializing = none ∧
    (ensureInitialized (disconnectClear s)).2 = .pending s.nextPromiseId ∧
    (ensureInitialized (disconnectClear s)).1.nextPromiseId = s.nextPromiseId + 1)

/-- A provider run on which the transaction is never confirmed and no polling
error mentions a timeout: every poll yields no receipt, an under-confirmed
receipt, or a non-timeout error. -/
def NeverConfirms (provider : Nat → PollResponse) (confirmations : Nat) : Prop :=
  ∀ n, match provider n with
    | .receipt _ c => c < confirmations
    | .pollError m => jsIncludes m "timeout" = false
    | .noReceipt => True

/-! ## Theorems -/

/-- C9: for every topic name and registration instant, the generated topic
hash equals the keccak256 hash of the UTF-8 bytes of the string formed by the
current unix timestamp in seconds, an underscore, and the topic name. -/
theorem topic_hash_matches_spec (keccak : List Nat → String) (nowMillis : Nat)
    (name : String) :
    generateTopicHash keccak nowMillis name =
      topicHashSpec keccak (nowMillis / 1000) name := rfl

/-- C1 counterexample: after an `init` started by `ensureInitialized`
terminally fails, the memoized `initializing` future is still set, and a
further `ensureInitialized` call returns that same settled promise (promise 0)
without starting a fresh initialization (the state, including the promise
counter, is unchanged) — contradicting the claim that the memoized future is
cleared on terminal failure. -/
theorem initializing_not_cleared_after_failed_init :
    (initSettle (ensureInitialized ⟨none, false, none, 0⟩).1 false 5).initializing
        = some 0 ∧
    ensureInitialized (initSettle (ensureInitialized ⟨none, false, none, 0⟩).1 false 5)
      = (initSettle (ensureInitialized ⟨none, false, none, 0⟩).1 false 5,
          .pending 0) := by decide

/-- C1 as amended: while the client is not connected, concurrent
`ensureInitialized` calls share one memoized pending promise (at most one
initialization in flight), `init`'s terminal resolution never clears the
memoized future (so a call after a terminal failure reuses the same settled
promise), and explicit `disconnect` does clear it, making the next call start
a fresh initialization. -/
theorem init_single_flight_memoization (s : InitLifecycle) (p : Nat)
    (h : s.connected = false) : C1Prop s p := by
  obtain ⟨br, conn, ini, next⟩ := s
  simp only at h
  subst h
  refine ⟨?_, ?_, ?_, ?_⟩
  · intro hini
    simp only at hini
    subst hini
    cases br <;> rfl
  · cases br <;> cases ini <;>
      simp [ensureInitialized]
  · intro ok b
    cases ok <;> rfl
  · refine ⟨rfl, ?_, ?_⟩ <;> cases br <;> rfl

/-- Witness for `init_single_flight_memoization` at a concrete disconnected
state with a memoized promise. -/
theorem init_single_flight_memoization_witness :
    (InitLifecycle.mk (some 3) false (some 1) 2).connected = false ∧
    C1Prop (InitLifecycle.mk (some 3) false (some 1) 2) 1 :=
  ⟨rfl, init_single_flight_memoization (InitLifecycle.mk (some 3) false (some 1) 2) 1 rfl⟩

/-- C2: when the chain is configured, the price fetch succeeds, and the
wallet's balance is below the fetched price, `purchaseTopic` fails with the
insufficient-balance error naming the required and available amounts (wrapped
by the method's catch), and zero `registerTopic` transactions are submitted
to the contract. -/
theorem insufficient_balance_blocks_register (env : PurchaseEnv) (w : Nat)
    (name : String) (nowMillis : Nat) (keccak : List Nat → String) (price : Nat)
    (hc : env.cfg.contractSet = true) (hp : env.cfg.providerSet = true)
    (hprice : env.priceCall = .ok price) (hbal : env.balance < price) :
    purchaseTopicModel env w name nowMillis keccak =
      (.error (.plain ("Failed to register topic: "
        ++ ("Insufficient balance. Required: " ++ formatEther price
            ++ " ETH, Available: " ++ formatEther env.balance ++ " ETH"))),
        []) := by
  unfold purchaseTopicModel getTopicPriceModel checkBalance
  simp [hc, hp, hprice, hbal, JsError.message]

/-- Witness for `insufficient_balance_blocks_register`: configured chain,
price 2 wei, balance 1 wei. -/
theorem insufficient_balance_blocks_register_witness :
    lowBalanceEnv.cfg.contractSet = true ∧
    lowBalanceEnv.cfg.providerSet = true ∧
    lowBalanceEnv.priceCall = .ok 2 ∧
    lowBalanceEnv.balance < 2 ∧
    purchaseTopicModel lowBalanceEnv 7 "mytopic" 0 (fun _ => "h") =
      (.error (.plain ("Failed to register topic: "
        ++ ("Insufficient balance. Required: " ++ formatEther 2
            ++ " ETH, Available: " ++ formatEther 1 ++ " ETH"))),
        []) :=
  ⟨rfl, rfl, rfl, by decide,
    insufficient_balance_blocks_register lowBalanceEnv 7 "mytopic" 0
      (fun _ => "h") 2 rfl rfl rfl (by decide)⟩

/-- On a never-confirming run the polling loop reaches the elapsed-time check
with `elapsed > timeout` and fails there, never settling later than
`timeout + pollingInterval`. -/
theorem confirmationLoop_times_out (provider : Nat → PollResponse)
    (confirmations timeout pollingInterval : Nat)
    (hprov : NeverConfirms provider confirmations) :
    ∀ (j e iter : Nat), timeout < e + j * pollingInterval →
      e ≤ timeout + pollingInterval →
      ∃ efin,
        confirmationLoop provider confirmations timeout pollingInterval
          (j + 1) iter e =
          some ⟨.error (confirmationTimeoutMsg timeout), efin⟩ ∧
        efin ≤ timeout + pollingInterval := by
  intro j
  induction j with
  | zero =>
    intro e iter hlt hle
    refine ⟨e, ?_, hle⟩
    unfold confirmationLoop
    simp only [Nat.zero_mul, Nat.add_zero] at hlt
    simp [hlt]
  | succ j ih =>
    intro e iter hlt hle
    by_cases hte : timeout < e
    · exact ⟨e, by unfold confirmationLoop; simp [hte], hle⟩
    · push_neg at hte
      have h1 : timeout < (e + pollingInterval) + j * pollingInterval := by
        have hsm : (j + 1) * pollingInterval
            = j * pollingInterval + pollingInterval := Nat.succ_mul j pollingInterval
        omega
      have h2 : e + pollingInterval ≤ timeout + pollingInterval :=
        Nat.add_le_add_right hte pollingInterval
      obtain ⟨efin, heq, hbound⟩ := ih (e + pollingInterval) (iter + 1) h1 h2
      refine ⟨efin, ?_, hbound⟩
      unfold confirmationLoop
      have hnt : ¬ timeout < e := Nat.not_lt.2 hte
      have hp := hprov iter
      cases hpi : provider iter with
      | noReceipt => simp [hnt, hpi, heq]
      | receipt b c =>
        rw [hpi] at hp
        simp only at hp
        simp [hnt, hpi, hp, heq]
      | pollError m =>
        rw [hpi] at hp
        simp only at hp
        simp [hnt, hpi, hp, heq]

/-- C3: the elapsed-time check runs before each receipt fetch, so on a
never-confirming provider run `waitForTransactionConfirmation` with timeout
`T` settles with the confirmation-timeout error no later than `T` plus one
polling interval; a polling error whose message mentions a timeout is
re-raised immediately (at elapsed time 0 when it is the first response); and
a non-timeout polling error merely sleeps one interval and continues the
loop. -/
theorem confirmation_timeout_bounded (provider : Nat → PollResponse)
    (confirmations timeout pollingInterval : Nat)
    (hint : 0 < pollingInterval) :
    (NeverConfirms provider confirmations →
      ∃ r : WaitResult,
        waitForTransactionConfirmation provider confirmations timeout
          pollingInterval = some r ∧
        r.result = .error (confirmationTimeoutMsg timeout) ∧
        r.elapsed ≤ timeout + pollingInterval) ∧
    (∀ m, jsIncludes m "timeout" = true → provider 0 = .pollError m →
      waitForTransactionConfirmation provider confirmations timeout
        pollingInterval = some ⟨.error m, 0⟩) ∧
    (∀ fuel iter e m, ¬ timeout < e → provider iter = .pollError m →
      jsIncludes m "timeout" = false →
      confirmationLoop provider confirmations timeout pollingInterval
        (fuel + 1) iter e =
      confirmationLoop provider confirmations timeout pollingInterval
        fuel (iter + 1) (e + pollingInterval)) := by
  refine ⟨?_, ?_, ?_⟩
  · intro hprov
    have hstart : timeout < 0 + (timeout / pollingInterval + 1) * pollingInterval := by
      have hdm : timeout / pollingInterval * pollingInterval
          + timeout % pollingInterval = timeout :=
        Nat.div_add_mod' timeout pollingInterval
      have hmod := Nat.mod_lt timeout hint
      have hsm : (timeout / pollingInterval + 1) * pollingInterval
          = timeout / pollingInterval * pollingInterval + pollingInterval :=
        Nat.succ_mul (timeout / pollingInterval) pollingInterval
      omega
    obtain ⟨efin, heq, hbound⟩ :=
      confirmationLoop_times_out provider confirmations timeout pollingInterval
        hprov (timeout / pollingInterval + 1) 0 0 hstart (Nat.zero_le _)
    exact ⟨⟨.error (confirmationTimeoutMsg timeout), efin⟩, heq, rfl, hbound⟩
  · intro m hm hp0
    unfold waitForTransactionConfirmation
    unfold confirmationLoop
    simp [hp0, hm]
  · intro fuel iter e m hne hpe hinc
    simp only [confirmationLoop]
    simp [hne, hpe, hinc]

/-- Witness for `confirmation_timeout_bounded`: a provider that never returns
a receipt, target 2 confirmations, timeout 10ms, polling interval 4ms. -/
theorem confirmation_timeout_bounded_witness :
    0 < 4 ∧
    ∃ r : WaitResult,
      waitForTransactionConfirmation (fun _ => PollResponse.noReceipt) 2 10 4
        = some r ∧
      r.result = .error (confirmationTimeoutMsg 10) ∧
      r.elapsed ≤ 10 + 4 :=
  ⟨by decide,
    (confirmation_timeout_bounded (fun _ => PollResponse.noReceipt) 2 10 4
      (by decide)).1 (fun _ => trivial)⟩

/-- C4: publishing `{"k":1}` with qos 1 to `"0xABCDEF/sub"` hands the broker
exactly the payload string `'{"k":1}'` on exactly that topic, with the publish
options carrying exactly one signature in the user-properties block — the
wallet's signature over the bytes of the topic root `"0xABCDEF"` — and the
signature is not part of the payload body. -/
theorem publish_signed_scenario (w : Nat) (mid : Option Nat) :
    publishModel (.ok ()) true w "0xABCDEF/sub" (Json.obj [("k", Json.num 1)])
        1 false (.ok mid)
      = (.ok (),
          some ⟨"0xABCDEF/sub", "\x7b\"k\":1\x7d", 1, false, [⟨w, [171, 205, 239]⟩]⟩,
          [], [("0xABCDEF/sub", mid)]) ∧
    toBeArray (jsSplitHead "0xABCDEF/sub") = [171, 205, 239] := by
  have hsplit : jsSplitHead "0xABCDEF/sub" = "0xABCDEF" := by decide
  have hhex : isHexTopicRoot "0xABCDEF" = true := by decide
  have hbytes : toBeArray "0xABCDEF" = [171, 205, 239] := by decide
  have hjson : jsonStringify (Json.obj [("k", Json.num 1)]) = "\x7b\"k\":1\x7d" := by
    decide
  refine ⟨?_, by rw [hsplit]; exact hbytes⟩
  simp [publishModel, hsplit, hhex, hbytes, hjson]

/-- JS `Map.set` then `Map.get` on the same key yields the new value
(re-registration replaces the previous callback). -/
theorem mapGet_mapSet (m : List (String × Nat)) (k : String) (v : Nat) :
    mapGet (mapSet m k v) k = some v := by
  induction m with
  | nil => simp [mapSet, mapGet]
  | cons hd tl ih =>
    obtain ⟨k', v'⟩ := hd
    by_cases hk : k' = k
    · simp [mapSet, hk, mapGet]
    · simp [mapSet, hk, mapGet, ih]

/-- C5 counterexample: with callback 7 registered for topic "A" on a
connected client, `unsubscribe("A")` resolves successfully, yet a subsequent
inbound message on "A" still dispatches to callback 7 — `unsubscribe` never
removes the `topicCallbacks` entry, contradicting the claim. -/
theorem unsubscribed_topic_still_dispatches :
    (unsubscribeModel ⟨some 1, true, [("A", 7)]⟩ "A" .ok).2
      = .ok ("A", "unsubscribed") ∧
    dispatchMessage (unsubscribeModel ⟨some 1, true, [("A", 7)]⟩ "A" .ok).1 "A"
      = some 7 := by decide

/-- C5 as amended: after `unsubscribe(topic)` resolves successfully the
client state — including the per-topic callback map — is unchanged, so a
subsequent inbound message delivered on that topic still invokes the
previously registered callback; suppression of further deliveries relies on
the broker, not on the client's dispatch table. -/
theorem unsubscribe_leaves_dispatch_intact (s : ClientPubSub) (topic : String)
    (broker : BrokerUnsubResult) (r : String × String)
    (h : (unsubscribeModel s topic broker).2 = .ok r) :
    (unsubscribeModel s topic broker).1 = s ∧
    dispatchMessage (unsubscribeModel s topic broker).1 topic
      = mapGet s.topicCallbacks topic := by
  obtain ⟨br, conn, cbs⟩ := s
  cases br <;> cases conn <;> cases broker <;>
    simp [unsubscribeModel, dispatchMessage] at h ⊢

/-- Witness for `unsubscribe_leaves_dispatch_intact` at a concrete connected
state with callback 7 registered for "A". -/
theorem unsubscribe_leaves_dispatch_intact_witness :
    (unsubscribeModel ⟨some 1, true, [("A", 7)]⟩ "A" .ok).2
      = .ok ("A", "unsubscribed") ∧
    ((unsubscribeModel ⟨some 1, true, [("A", 7)]⟩ "A" .ok).1
        = (⟨some 1, true, [("A", 7)]⟩ : ClientPubSub) ∧
      dispatchMessage (unsubscribeModel ⟨some 1, true, [("A", 7)]⟩ "A" .ok).1 "A"
        = mapGet [("A", 7)] "A") :=
  ⟨by decide,
    unsubscribe_leaves_dispatch_intact ⟨some 1, true, [("A", 7)]⟩ "A" .ok
      ("A", "unsubscribed") (by decide)⟩

/-- C6 counterexample: a subscribe transport failure rejects the returned
promise but broadcasts nothing on the `error` event channel (the handler
explicitly only rejects), contradicting the claim that every publish or
subscribe transport failure is additionally broadcast. -/
theorem subscribe_error_not_broadcast :
    (subscribeModel (.ok ()) ⟨some 1, true, []⟩ "T" 9 (.err "boom")).2.1
      = .error (.dpsn SUBSCRIBE_SETUP_ERROR
          "Failed to set up subscription for DPSN topic 'T': Failed to subscribe to DPSN topic 'T': boom") ∧
    (subscribeModel (.ok ()) ⟨some 1, true, []⟩ "T" 9 (.err "boom")).2.2.2
      = ([] : List JsError) := by decide

/-- C6 as amended: a publish transport failure rejects the returned promise
with the structured `PUBLISH_ERROR` and additionally broadcasts the same
error on the `error` event channel, but a subscribe transport failure only
rejects — `subscribe` never broadcasts anything on the `error` channel. -/
theorem publish_error_broadcast_subscribe_silent (w : Nat) (topic : String)
    (message : Json) (qos : Nat) (retain : Bool) (msg : String)
    (hhex : isHexTopicRoot (jsSplitHead topic) = true) :
    (publishModel (.ok ()) true w topic message qos retain (.err msg)
      = (.error (.dpsn PUBLISH_ERROR
            (if msg = "" then "Failed to publish message" else msg)),
          some ⟨topic, jsonStringify message, qos, retain,
            [⟨w, toBeArray (jsSplitHead topic)⟩]⟩,
          [.dpsn PUBLISH_ERROR
            (if msg = "" then "Failed to publish message" else msg)],
          [])) ∧
    (∀ er s t cb broker,
      (subscribeModel er s t cb broker).2.2.2 = ([] : List JsError)) := by
  constructor
  · simp [publishModel, hhex]
  · intro er s t cb broker
    rcases er with e | u
    · rfl
    · cases hbr : s.dpsnBroker with
      | none => simp [subscribeModel, hbr]
      | some b =>
        by_cases hc : s.connected = true
        · cases hatt : subscribeAttempt t broker with
          | error e2 => simp [subscribeModel, hbr, hc, hatt]
          | ok q => simp [subscribeModel, hbr, hc, hatt]
        · have hcf : s.connected = false := by
            revert hc; cases s.connected <;> simp
          simp [subscribeModel, hbr, hcf]

/-- Witness for `publish_error_broadcast_subscribe_silent` with topic root
"0xAB": the publish rejection is also broadcast, and a concrete failing
subscribe broadcasts nothing. -/
theorem publish_error_broadcast_subscribe_silent_witness :
    isHexTopicRoot (jsSplitHead "0xAB/t") = true ∧
    (publishModel (.ok ()) true 7 "0xAB/t" Json.null 1 false (.err "boom")
      = (.error (.dpsn PUBLISH_ERROR
            (if "boom" = "" then "Failed to publish message" else "boom")),
          some ⟨"0xAB/t", jsonStringify Json.null, 1, false,
            [⟨7, toBeArray (jsSplitHead "0xAB/t")⟩]⟩,
          [.dpsn PUBLISH_ERROR
            (if "boom" = "" then "Failed to publish message" else "boom")],
          [])) ∧
    (subscribeModel (.ok ()) ⟨some 1, true, []⟩ "T" 9 (.err "x")).2.2.2
      = ([] : List JsError) :=
  ⟨by decide,
    (publish_error_broadcast_subscribe_silent 7 "0xAB/t" Json.null 1 false
      "boom" (by decide)).1,
    (publish_error_broadcast_subscribe_silent 7 "0xAB/t" Json.null 1 false
      "boom" (by decide)).2 (.ok ()) ⟨some 1, true, []⟩ "T" 9 (.err "x")⟩

/-- C7 counterexample: on a connected client, a subscribe transport error
surfaces to the caller with code `SUBSCRIBE_SETUP_ERROR` (408), not
`SUBSCRIBE_ERROR` (406), and an empty grant list also surfaces with code
`SUBSCRIBE_SETUP_ERROR`, not `SUBSCRIBE_NO_GRANT` (407): the inner rejections
are re-wrapped by the surrounding try/catch. -/
theorem subscribe_transport_error_code_wrapped :
    (subscribeModel (.ok ()) ⟨some 1, true, []⟩ "T" 9 (.err "boom")).2.1
      = .error (.dpsn SUBSCRIBE_SETUP_ERROR
          "Failed to set up subscription for DPSN topic 'T': Failed to subscribe to DPSN topic 'T': boom") ∧
    SUBSCRIBE_SETUP_ERROR ≠ SUBSCRIBE_ERROR ∧
    (subscribeModel (.ok ()) ⟨some 1, true, []⟩ "T" 9 (.granted [])).2.1
      = .error (.dpsn SUBSCRIBE_SETUP_ERROR
          "Failed to set up subscription for DPSN topic 'T': No subscription granted for DPSN topic 'T'") ∧
    SUBSCRIBE_SETUP_ERROR ≠ SUBSCRIBE_NO_GRANT := by decide

/-- C7 as amended: `subscribe` distinguishes `ClientNotInitialized` (no
broker handle) from `ClientNotConnected` (handle but not connected); a
transport error produces the `SUBSCRIBE_ERROR` message and an empty grant
list the `SUBSCRIBE_NO_GRANT` message, but both reach the caller wrapped as
`SUBSCRIBE_SETUP_ERROR`; on any granted QoS the callback is registered under
the topic key, replacing any prior registration, and a `subscription` event
with topic and granted QoS is emitted. -/
theorem subscribe_failure_modes (s : ClientPubSub) (topic : String) (cb : Nat) :
    (∀ broker, s.dpsnBroker = none →
      (subscribeModel (.ok ()) s topic cb broker).2.1
        = .error (.dpsn CLIENT_NOT_INITIALIZED
            "Cannot subscribe: DPSN MQTT client not initialized. Initialization failed.")) ∧
    (∀ broker b, s.dpsnBroker = some b → s.connected = false →
      (subscribeModel (.ok ()) s topic cb broker).2.1
        = .error (.dpsn CLIENT_NOT_CONNECTED
            "Cannot subscribe: DPSN MQTT client is not connected. Please check your connection.")) ∧
    (∀ msg b, s.dpsnBroker = some b → s.connected = true →
      (subscribeModel (.ok ()) s topic cb (.err msg)).2.1
        = .error (.dpsn SUBSCRIBE_SETUP_ERROR
            ("Failed to set up subscription for DPSN topic '" ++ topic ++ "': "
              ++ ("Failed to subscribe to DPSN topic '" ++ topic ++ "': " ++ msg)))) ∧
    (∀ b, s.dpsnBroker = some b → s.connected = true →
      (subscribeModel (.ok ()) s topic cb (.granted [])).2.1
        = .error (.dpsn SUBSCRIBE_SETUP_ERROR
            ("Failed to set up subscription for DPSN topic '" ++ topic ++ "': "
              ++ ("No subscription granted for DPSN topic '" ++ topic ++ "'")))) ∧
    (∀ b q rest, s.dpsnBroker = some b → s.connected = true →
      subscribeModel (.ok ()) s topic cb (.granted (q :: rest))
        = ({ s with topicCallbacks := mapSet s.topicCallbacks topic cb },
            .ok (), [(topic, q)], [])) ∧
    mapGet (mapSet s.topicCallbacks topic cb) topic = some cb := by
  refine ⟨?_, ?_, ?_, ?_, ?_, mapGet_mapSet _ _ _⟩
  · intro broker hbr
    simp [subscribeModel, hbr]
  · intro broker b hbr hconn
    simp [subscribeModel, hbr, hconn]
  · intro msg b hbr hconn
    simp [subscribeModel, subscribeAttempt, hbr, hconn, JsError.message]
  · intro b hbr hconn
    simp [subscribeModel, subscribeAttempt, hbr, hconn, JsError.message]
  · intro b q rest hbr hconn
    simp [subscribeModel, subscribeAttempt, hbr, hconn]

/-- Witness for `subscribe_failure_modes`: a connected client, transport
error "x" on topic "T". -/
theorem subscribe_failure_modes_witness :
    (⟨some 1, true, []⟩ : ClientPubSub).dpsnBroker = some 1 ∧
    (⟨some 1, true, []⟩ : ClientPubSub).connected = true ∧
    (subscribeModel (.ok ()) ⟨some 1, true, []⟩ "T" 9 (.err "x")).2.1
      = .error (.dpsn SUBSCRIBE_SETUP_ERROR
          ("Failed to set up subscription for DPSN topic '" ++ "T" ++ "': "
            ++ ("Failed to subscribe to DPSN topic '" ++ "T" ++ "': " ++ "x"))) :=
  ⟨rfl, rfl,
    (subscribe_failure_modes ⟨some 1, true, []⟩ "T" 9).2.2.1 "x" 1 rfl rfl⟩

/-- C8 counterexample: constructed with network "testnet", chain type
"ethereum" and no RPC URL, `getTopicPrice` fails before any contract call,
but the error the caller receives is a plain message-only `Error` produced by
the method's own catch — it carries no programmatically branchable code,
contradicting the claim that the caller receives a structured value. -/
theorem topic_price_error_lacks_code :
    constructChainConfig "testnet" "ethereum" none = .ok ⟨false, false⟩ ∧
    getTopicPriceModel ⟨false, false⟩ (.ok 5)
      = (.error (.plain
          "Failed to fetch topic price: Blockchain configuration not initialized. Please call setBlockchainConfig first."),
          0) ∧
    JsError.hasCode (.plain
        "Failed to fetch topic price: Blockchain configuration not initialized. Please call setBlockchainConfig first.")
      = false := by decide

/-- C8 as amended: for a client constructed with network "testnet", chain
type "ethereum" and no RPC URL, `getTopicPrice` fails immediately with zero
contract calls; the structured `BLOCKCHAIN_CONFIG_ERROR` is raised internally
but the method's catch re-wraps it, so the caller receives a plain
message-only `Error` (the code is lost in the wrapping). -/
theorem topic_price_unconfigured_immediate (call : Except String Nat)
    (cfg : ChainConfig)
    (hcfg : constructChainConfig "testnet" "ethereum" none = .ok cfg) :
    getTopicPriceModel cfg call
      = (.error (.plain ("Failed to fetch topic price: "
          ++ "Blockchain configuration not initialized. Please call setBlockchainConfig first.")),
          0) ∧
    JsError.hasCode (.plain ("Failed to fetch topic price: "
        ++ "Blockchain configuration not initialized. Please call setBlockchainConfig first."))
      = false := by
  have h' : Except.ok (⟨false, false⟩ : ChainConfig) = Except.ok cfg := hcfg
  injection h' with hc
  subst hc
  exact ⟨rfl, rfl⟩

/-- Witness for `topic_price_unconfigured_immediate` at the concrete
construction and a contract call that would have returned price 5. -/
theorem topic_price_unconfigured_immediate_witness :
    constructChainConfig "testnet" "ethereum" none = .ok ⟨false, false⟩ ∧
    (getTopicPriceModel ⟨false, false⟩ (.ok 5)
      = (.error (.plain ("Failed to fetch topic price: "
          ++ "Blockchain configuration not initialized. Please call setBlockchainConfig first.")),
          0) ∧
    JsError.hasCode (.plain ("Failed to fetch topic price: "
        ++ "Blockchain configuration not initialized. Please call setBlockchainConfig first."))
      = false) :=
  ⟨by decide,
    topic_price_unconfigured_immediate (.ok 5) ⟨false, false⟩ (by decide)⟩

/-- C10: whenever `subscribe` fails — initialization failure, missing broker
handle, not-connected state, transport error, or empty grant list — the
client state, and in particular the per-topic callback map, is left
unchanged, so the inbound-message dispatch path behaves exactly as before the
failed call: the new callback never becomes reachable. -/
theorem failed_subscribe_preserves_callbacks (er : Except JsError Unit)
    (s : ClientPubSub) (topic : String) (cb : Nat) (broker : BrokerSubResult)
    (e : JsError)
    (h : (subscribeModel er s topic cb broker).2.1 = .error e) :
    (subscribeModel er s topic cb broker).1 = s ∧
    ∀ t, dispatchMessage (subscribeModel er s topic cb broker).1 t
      = dispatchMessage s t := by
  suffices hstate : (subscribeModel er s topic cb broker).1 = s by
    exact ⟨hstate, fun t => by rw [hstate]⟩
  rcases er with e' | u
  · rfl
  · cases hbr : s.dpsnBroker with
    | none => simp [subscribeModel, hbr]
    | some b =>
      by_cases hc : s.connected = true
      · cases hatt : subscribeAttempt topic broker with
        | error e2 => simp [subscribeModel, hbr, hc, hatt]
        | ok q =>
          exfalso
          simp [subscribeModel, hbr, hc, hatt] at h
      · have hcf : s.connected = false := by
          revert hc; cases s.connected <;> simp
        simp [subscribeModel, hbr, hcf]

/-- Witness for `failed_subscribe_preserves_callbacks`: a concrete transport
failure on a connected client with callback 3 registered for "B". -/
theorem failed_subscribe_preserves_callbacks_witness :
    (subscribeModel (.ok ()) ⟨some 1, true, [("B", 3)]⟩ "T" 9 (.err "boom")).2.1
      = .error (.dpsn SUBSCRIBE_SETUP_ERROR
          "Failed to set up subscription for DPSN topic 'T': Failed to subscribe to DPSN topic 'T': boom") ∧
    ((subscribeModel (.ok ()) ⟨some 1, true, [("B", 3)]⟩ "T" 9 (.err "boom")).1
        = (⟨some 1, true, [("B", 3)]⟩ : ClientPubSub) ∧
      ∀ t, dispatchMessage
          (subscribeModel (.ok ()) ⟨some 1, true, [("B", 3)]⟩ "T" 9 (.err "boom")).1 t
        = dispatchMessage (⟨some 1, true, [("B", 3)]⟩ : ClientPubSub) t) :=
  ⟨by decide,
    failed_subscribe_preserves_callbacks (.ok ()) ⟨some 1, true, [("B", 3)]⟩
      "T" 9 (.err "boom")
      (.dpsn SUBSCRIBE_SETUP_ERROR
        "Failed to set up subscription for DPSN topic 'T': Failed to subscribe to DPSN topic 'T': boom")
      (by decide)⟩

end Dpsn
